import Mathlib

/-!
Formal model of the Bluetooth GD L2CAP LE gRPC facade
(system/gd/l2cap/le/facade.cc).

The facade exposes dynamic-channel operations over a request/response
interface: `SetDynamicChannel` (enable/disable a PSM), `OpenDynamicChannel`
(outbound connect), `CloseDynamicChannel`, `SendDynamicChannelPacket`, and a
streaming `FetchL2capData` fed by an event queue `pending_l2cap_data_`.

Per-PSM state lives in `L2capDynamicChannelHelper`: the single open channel
(`channel_`), the last connect-failure reason (`channel_open_fail_reason_`),
and the callbacks `on_connection_open`, `on_connect_fail`,
`on_close_callback`, `on_incoming_packet`, `enqueue_callback`.

Asynchronous completion is modelled by an explicit environment argument: a
`ConnectEnv` says which completion callback (if any) fires inside the 2 s
bounded wait of `Connect`, and a `SendEnv` says whether a channel appears
during `SendPacket`'s 2 s wait and whether the registered enqueue callback
runs within the 500 ms wait on the promise/future.  Timing itself is erased;
the bounded waits appear as total branches of the model.
-/

/-- gRPC status codes used by the facade. -/
inductive GrpcCode
  | OK
  | FAILED_PRECONDITION
deriving DecidableEq, Repr

/-- A gRPC status as returned by the facade's service methods. -/
structure GrpcStatus where
  code : GrpcCode
  message : String
deriving DecidableEq, Repr

/-- The `::grpc::Status::OK` value. -/
def grpcOk : GrpcStatus := ⟨GrpcCode.OK, ""⟩

/-- `Status(FAILED_PRECONDITION, "Psm not registered")`. -/
def psmNotRegistered : GrpcStatus := ⟨GrpcCode.FAILED_PRECONDITION, "Psm not registered"⟩

/-- `Status(FAILED_PRECONDITION, "Channel not open")`. -/
def channelNotOpen : GrpcStatus := ⟨GrpcCode.FAILED_PRECONDITION, "Channel not open"⟩

/-- `DynamicChannelManager::ConnectionResult`, reduced to the single field the
facade reads (`l2cap_connection_response_result`).  Its default-constructed
value is the code 0 (`SUCCESS`). -/
structure ConnectionResult where
  l2cap_connection_response_result : Nat
deriving DecidableEq, Repr

/-- A dynamic channel, reduced to the receive path the facade observes: the
packets buffered at the queue-up end, in arrival order (head = next unit
`TryDequeue` returns). -/
structure Channel where
  inbound : List (List Nat)
deriving DecidableEq, Repr

/-- Per-PSM state of `L2capDynamicChannelHelper`.
`enqueueRegistered` records the payloads whose one-shot enqueue callbacks the
facade has registered on the channel's queue-up end and not yet unregistered,
in registration order. `serviceRegistered` tracks the listener registration
(`service_`) created by the constructor and released by `Unregister`. -/
structure Helper where
  psm : Nat
  channel : Option Channel := none
  channel_open_fail_reason : ConnectionResult := ⟨0⟩
  dequeueRegistered : Bool := false
  serviceRegistered : Bool := true
  enqueueRegistered : List (List Nat) := []
deriving DecidableEq, Repr

/-- An event published to `pending_l2cap_data_`: an `L2capPacket` proto with
`psm` and `payload` fields. -/
structure L2capPacket where
  psm : Nat
  payload : List Nat
deriving DecidableEq, Repr

/-- State of `L2capLeModuleFacadeService`: the registry
`dynamic_channel_helper_map_` (a `std::map` keyed by PSM, modelled as an
association list) and the published events of `pending_l2cap_data_`. -/
structure FacadeState where
  dynamic_channel_helper_map : List (Nat × Helper) := []
  pending_l2cap_data : List L2capPacket := []
deriving DecidableEq, Repr

/-- `std::map::find`: first binding of the key, if any. -/
def mapFind (m : List (Nat × Helper)) (k : Nat) : Option Helper :=
  match m with
  | [] => none
  | (k', v) :: rest => if k' = k then some v else mapFind rest k

/-- `std::map::emplace`: inserts only when the key is absent; an existing
binding is left untouched and the insertion silently fails. -/
def mapEmplace (m : List (Nat × Helper)) (k : Nat) (v : Helper) : List (Nat × Helper) :=
  match m with
  | [] => [(k, v)]
  | (k', v') :: rest => if k' = k then (k', v') :: rest else (k', v') :: mapEmplace rest k v

/-- In-place mutation of the helper stored under a key (C++ mutates the
helper object owned by the map). -/
def mapUpdate (m : List (Nat × Helper)) (k : Nat) (v : Helper) : List (Nat × Helper) :=
  match m with
  | [] => []
  | (k', v') :: rest => if k' = k then (k', v) :: rest else (k', v') :: mapUpdate rest k v

/-- The helper built by `SetDynamicChannel(enable)`: fresh state for `psm`,
listener registration issued by the constructor. -/
def freshHelper (psm : Nat) : Helper := { psm := psm }

/-- `on_connection_open`: stores the channel (under the lock), notifies the
condition variable, then registers the close callback and the dequeue
callback on the facade handler. -/
def on_connection_open (h : Helper) (ch : Channel) : Helper :=
  { h with channel := some ch, dequeueRegistered := true }

/-- `on_close_callback`: unregisters the dequeue callback (under the lock)
and clears `channel_` (after the lock scope ends). -/
def on_close_callback (h : Helper) : Helper :=
  { h with dequeueRegistered := false, channel := none }

/-- `on_connect_fail`: clears `channel_`, records the failure reason in
`channel_open_fail_reason_`, and notifies the condition variable. -/
def on_connect_fail (h : Helper) (r : ConnectionResult) : Helper :=
  { h with channel := none, channel_open_fail_reason := r }

/-- Which asynchronous completion, if any, fires during the 2 s bounded wait
inside `Connect`. -/
inductive ConnectEnv
  | opens (ch : Channel)
  | fails (r : ConnectionResult)
  | timesOut
deriving Repr

/-- `L2capDynamicChannelHelper::Connect`: issues `ConnectChannel` and blocks
on `channel_open_cv_` for at most 2 seconds.  If `on_connection_open` fires
the channel is stored; if `on_connect_fail` fires the failure reason is
recorded; if neither fires the wait elapses, a warning is logged, and the
helper state is unchanged — the call returns in every case. -/
def Helper.Connect (h : Helper) (env : ConnectEnv) : Helper :=
  match env with
  | ConnectEnv.opens ch => on_connection_open h ch
  | ConnectEnv.fails r => on_connect_fail h r
  | ConnectEnv.timesOut => h

/-- `on_incoming_packet`: calls `TryDequeue` on the channel's queue-up end
and unconditionally dereferences the result, then publishes one
`L2capPacket` carrying `psm_` and the unit's bytes to `pending_l2cap_data_`.
`none` models the undefined null dereference: the channel pointer being null,
or `TryDequeue` returning empty. -/
def on_incoming_packet (h : Helper) (relay : List L2capPacket) :
    Option (Helper × List L2capPacket) :=
  match h.channel with
  | none => none
  | some ch =>
    match ch.inbound with
    | [] => none
    | pkt :: rest =>
      some ({ h with channel := some ⟨rest⟩ }, relay ++ [⟨h.psm, pkt⟩])

/-- `enqueue_callback`: builds the outbound unit from the payload, calls
`UnregisterEnqueue` (removing its own, most recent, registration) and
signals the promise.  Returns the updated helper and the built unit. -/
def enqueue_callback (h : Helper) (packet : List Nat) : Helper × List Nat :=
  ({ h with enqueueRegistered := h.enqueueRegistered.dropLast }, packet)

/-- Environment of one `SendPacket` call: whether a channel appears during
the 2 s wait when `channel_` is null, and whether the registered enqueue
callback runs (signalling the promise) within the 500 ms wait. -/
structure SendEnv where
  channelAppears : Option Channel
  promiseReady : Bool
deriving Repr

/-- The path of `SendPacket` taken once a channel is present: register the
one-shot enqueue callback carrying the payload, then wait up to 500 ms on
the promise's future.  If the callback runs it unregisters itself and the
call returns true; otherwise the call returns false with the registration
still in place. -/
def sendOnOpen (h : Helper) (packet : List Nat) (env : SendEnv) : Helper × Bool :=
  let h1 := { h with enqueueRegistered := h.enqueueRegistered ++ [packet] }
  if env.promiseReady then ((enqueue_callback h1 packet).1, true)
  else (h1, false)

/-- `L2capDynamicChannelHelper::SendPacket`: if `channel_` is null, wait up
to 2 s for it to appear (failing with false otherwise); then run the
single-slot enqueue protocol. -/
def Helper.SendPacket (h : Helper) (packet : List Nat) (env : SendEnv) : Helper × Bool :=
  match h.channel with
  | some _ => sendOnOpen h packet env
  | none =>
    match env.channelAppears with
    | none => (h, false)
    | some ch => sendOnOpen (on_connection_open h ch) packet env

/-- `OpenDynamicChannel`: looks up the PSM, runs the helper's `Connect`, and
always answers grpc OK with `response.status` set from
`channel_open_fail_reason_.l2cap_connection_response_result` — whatever that
field currently holds. -/
def OpenDynamicChannel (s : FacadeState) (psm : Nat) (env : ConnectEnv) :
    FacadeState × GrpcStatus × Option Nat :=
  match mapFind s.dynamic_channel_helper_map psm with
  | none => (s, psmNotRegistered, none)
  | some helper =>
    let helper' := helper.Connect env
    ({ s with dynamic_channel_helper_map :=
        (mapUpdate s.dynamic_channel_helper_map psm helper') },
     grpcOk,
     some helper'.channel_open_fail_reason.l2cap_connection_response_result)

/-- `CloseDynamicChannel`: `Psm not registered` when the PSM is unknown,
`Channel not open` when `channel_` is null; otherwise issues the
asynchronous `channel_->Close()` (no facade state change until
`on_close_callback` fires) and returns OK. -/
def CloseDynamicChannel (s : FacadeState) (psm : Nat) : FacadeState × GrpcStatus :=
  match mapFind s.dynamic_channel_helper_map psm with
  | none => (s, psmNotRegistered)
  | some helper =>
    match helper.channel with
    | none => (s, channelNotOpen)
    | some _ => (s, grpcOk)

/-- `SetDynamicChannel`: on enable, `emplace` a fresh helper and return OK
unconditionally; on disable, `Psm not registered` when unknown, otherwise
`service_->Unregister(...)` and OK — the map entry is not erased. -/
def SetDynamicChannel (s : FacadeState) (psm : Nat) (enable : Bool) :
    FacadeState × GrpcStatus :=
  if enable then
    ({ s with dynamic_channel_helper_map :=
        (mapEmplace s.dynamic_channel_helper_map psm (freshHelper psm)) }, grpcOk)
  else
    match mapFind s.dynamic_channel_helper_map psm with
    | none => (s, psmNotRegistered)
    | some helper =>
      ({ s with dynamic_channel_helper_map :=
          (mapUpdate s.dynamic_channel_helper_map psm
            ({ helper with serviceRegistered := false })) }, grpcOk)

/-- `SendDynamicChannelPacket`: `Psm not registered` when the PSM is
unknown; otherwise runs `SendPacket` and maps a false result to
`Status(FAILED_PRECONDITION, "Channel not open")`. -/
def SendDynamicChannelPacket (s : FacadeState) (psm : Nat) (payload : List Nat)
    (env : SendEnv) : FacadeState × GrpcStatus :=
  match mapFind s.dynamic_channel_helper_map psm with
  | none => (s, psmNotRegistered)
  | some helper =>
    let r := helper.SendPacket payload env
    let s' := { s with dynamic_channel_helper_map :=
        (mapUpdate s.dynamic_channel_helper_map psm r.1) }
    if r.2 then (s', grpcOk) else (s', channelNotOpen)

/-- Replace the helper stored for a PSM. -/
def putHelper (s : FacadeState) (psm : Nat) (h : Helper) : FacadeState :=
  { s with dynamic_channel_helper_map := mapUpdate s.dynamic_channel_helper_map psm h }

/-- The channel manager delivers the close event for a PSM's channel:
`on_close_callback` runs on that PSM's helper. -/
def fireOnClose (s : FacadeState) (psm : Nat) : FacadeState :=
  match mapFind s.dynamic_channel_helper_map psm with
  | none => s
  | some h => putHelper s psm (on_close_callback h)

/-- Modelled from the spec: `GrpcEventQueue::RunLoop`
(grpc/grpc_event_queue.h is not among the analysed sources).  Per §4.3 the
Event Relay is a single ordered blocking queue whose one streaming consumer
forwards published events to the driver in publish order. -/
def RunLoop (published : List L2capPacket) : List L2capPacket := published

/-- The subsequence of events belonging to one port, in order. -/
def portEvents (p : Nat) (events : List L2capPacket) : List L2capPacket :=
  events.filter (fun e => e.psm == p)

/-- A packet arrives on the open channel of the given PSM and the dequeue
callback fires once for it: the unit joins the receive queue and
`on_incoming_packet` runs on that helper. -/
def deliverTo (s : FacadeState) (psm : Nat) (pkt : List Nat) : FacadeState :=
  match mapFind s.dynamic_channel_helper_map psm with
  | none => s
  | some h =>
    match h.channel with
    | none => s
    | some ch =>
      let h1 := { h with channel := some ⟨ch.inbound ++ [pkt]⟩ }
      match on_incoming_packet h1 s.pending_l2cap_data with
      | none => s
      | some (h2, relay) =>
        { dynamic_channel_helper_map := mapUpdate s.dynamic_channel_helper_map psm h2,
          pending_l2cap_data := relay }

/-- Run a sequence of packet arrivals, each tagged with the PSM it arrives
on. -/
def runArrivals (s : FacadeState) (arrivals : List (Nat × List Nat)) : FacadeState :=
  match arrivals with
  | [] => s
  | (psm, pkt) :: rest => runArrivals (deliverTo s psm pkt) rest

/-- The PSM has a registered helper whose own `psm_` field matches the key
and whose channel is open with an empty receive backlog. -/
def openEmptyAt (s : FacadeState) (p : Nat) : Prop :=
  ∃ h, mapFind s.dynamic_channel_helper_map p = some h ∧ h.psm = p ∧ h.channel = some ⟨[]⟩

/-- One atomic action of a helper callback, as written in the source, for
checking the lock discipline around `channel_` and the pending-send slot. -/
inductive LockAction
  | acquire
  | release
  | writeChannel
  | writeFailReason
  | writePendingSend
  | unregisterDequeue
  | notifyAll
  | registerCallbacks
  | issueConnectRequest
  | waitOnCv
deriving DecidableEq, Repr

/-- Transcription of `on_connection_open` (facade.cc lines 150-162): the
scoped lock covers the `channel_` store; notification and callback
registration happen after release. -/
def on_connection_open_steps : List LockAction :=
  [LockAction.acquire, LockAction.writeChannel, LockAction.release,
   LockAction.notifyAll, LockAction.registerCallbacks]

/-- Transcription of `on_close_callback` (facade.cc lines 164-170): the
scoped lock covers only `UnregisterDequeue`; `channel_ = nullptr` executes
after the lock has been released. -/
def on_close_callback_steps : List LockAction :=
  [LockAction.acquire, LockAction.unregisterDequeue, LockAction.release,
   LockAction.writeChannel]

/-- Transcription of `on_connect_fail` (facade.cc lines 172-179): the scoped
lock covers both the `channel_` clear and the failure-reason store. -/
def on_connect_fail_steps : List LockAction :=
  [LockAction.acquire, LockAction.writeChannel, LockAction.writeFailReason,
   LockAction.release, LockAction.notifyAll]

/-- Transcription of `SendPacket`'s open-channel path (facade.cc lines
198-203): the promise is created and the enqueue callback carrying the
payload is registered with no lock held. -/
def SendPacket_steps : List LockAction :=
  [LockAction.writePendingSend, LockAction.waitOnCv]

/-- Does this action mutate one of the fields named by the invariant
(`channel`, `pendingSend`)? -/
def writesSharedField (a : LockAction) : Bool :=
  match a with
  | LockAction.writeChannel => true
  | LockAction.writePendingSend => true
  | _ => false

/-- Check, tracking lock depth, that every mutation of a shared field
happens while the lock is held. -/
def mutatesOnlyUnderLockFrom (depth : Nat) (steps : List LockAction) : Bool :=
  match steps with
  | [] => true
  | a :: rest =>
    match a with
    | LockAction.acquire => mutatesOnlyUnderLockFrom (depth + 1) rest
    | LockAction.release => mutatesOnlyUnderLockFrom (depth - 1) rest
    | _ => (!writesSharedField a || decide (0 < depth)) && mutatesOnlyUnderLockFrom depth rest

/-- Lock discipline of a callback body, starting with the lock free. -/
def mutatesOnlyUnderLock (steps : List LockAction) : Bool :=
  mutatesOnlyUnderLockFrom 0 steps

/-- The shared-field writes a callback performs while the lock is not held. -/
def unlockedWritesFrom (depth : Nat) (steps : List LockAction) : List LockAction :=
  match steps with
  | [] => []
  | a :: rest =>
    match a with
    | LockAction.acquire => unlockedWritesFrom (depth + 1) rest
    | LockAction.release => unlockedWritesFrom (depth - 1) rest
    | _ =>
      if writesSharedField a && decide (depth = 0) then a :: unlockedWritesFrom depth rest
      else unlockedWritesFrom depth rest

/-- Unlocked shared-field writes of a callback body. -/
def unlockedWrites (steps : List LockAction) : List LockAction :=
  unlockedWritesFrom 0 steps

/-- The empty channel (open, no receive backlog). -/
def ch0 : Channel := ⟨[]⟩

/-- The facade right after `Start`: empty registry, no published events. -/
def s0 : FacadeState := ⟨[], []⟩

/-- The facade after one `SetDynamicChannel(psm 1, enable)`. -/
def s1 : FacadeState := (SetDynamicChannel s0 1 true).1

/-- A helper for PSM 1 whose channel is open with empty backlog. -/
def helperOpen : Helper := { freshHelper 1 with channel := some ch0 }

/-- A helper for PSM 1 with an open channel and one in-flight send whose
enqueue callback has not yet fired (payload `[1]` still registered). -/
def helperBusy : Helper := { helperOpen with enqueueRegistered := [[1]] }

/-- Facade with PSM 1 registered and its channel open. -/
def sOpen : FacadeState := ⟨[(1, helperOpen)], []⟩

/-- Facade with PSM 1 open and payload `[1]`'s send still in flight. -/
def sBusy : FacadeState := ⟨[(1, helperBusy)], []⟩

/-- Facade after `SetDynamicChannel(1, enable)` followed by a connect
attempt that failed with reason code 5. -/
def s1f : FacadeState := (OpenDynamicChannel s1 1 (ConnectEnv.fails ⟨5⟩)).1

/-- The PSM-1 helper after the failed attempt recorded reason code 5. -/
def helperFailed : Helper := on_connect_fail (freshHelper 1) ⟨5⟩

/-- A helper for PSM 1 whose channel has one buffered inbound unit `[3]`. -/
def helperWithInbound : Helper := { freshHelper 1 with channel := some ⟨[[3]]⟩ }

/-- A helper for PSM 2 whose channel is open with empty backlog. -/
def helperOpen2 : Helper := { freshHelper 2 with channel := some ch0 }

/-- Facade with PSMs 1 and 2 both registered and open. -/
def sTwo : FacadeState := ⟨[(1, helperOpen), (2, helperOpen2)], []⟩

theorem mapFind_mapUpdate_self (m : List (Nat × Helper)) (k : Nat) (v v' : Helper)
    (h : mapFind m k = some v) : mapFind (mapUpdate m k v') k = some v' := by
  induction m with
  | nil => simp [mapFind] at h
  | cons p rest ih =>
    obtain ⟨k', w⟩ := p
    by_cases hk : k' = k
    · simp [mapFind, mapUpdate, hk]
    · simp [mapFind, mapUpdate, hk] at h ⊢
      exact ih h

theorem mapFind_mapUpdate_ne (m : List (Nat × Helper)) (k k' : Nat) (v : Helper)
    (h : k' ≠ k) : mapFind (mapUpdate m k v) k' = mapFind m k' := by
  induction m with
  | nil => simp [mapUpdate]
  | cons p rest ih =>
    obtain ⟨k0, w⟩ := p
    by_cases hk : k0 = k
    · subst hk
      simp [mapFind, mapUpdate, Ne.symm h]
    · simp [mapFind, mapUpdate, hk]
      by_cases hk' : k0 = k'
      · simp [hk']
      · simp [hk', ih]

theorem mapEmplace_of_found (m : List (Nat × Helper)) (k : Nat) (v v' : Helper)
    (h : mapFind m k = some v) : mapEmplace m k v' = m := by
  induction m with
  | nil => simp [mapFind] at h
  | cons p rest ih =>
    obtain ⟨k0, w⟩ := p
    by_cases hk : k0 = k
    · simp [mapEmplace, hk]
    · simp [mapFind, hk] at h
      simp [mapEmplace, hk, ih h]

/-- C1 counterexample: with PSM 1 freshly registered, an `OpenDynamicChannel`
whose completion callback never fires (the 2 s wait elapses) answers grpc OK
with response status 0 — exactly the same response a successful open
produces, and 0 is the default `SUCCESS` code of
`channel_open_fail_reason_`.  No distinct timeout / "not yet open" status
exists; the elapsed wait only logs a warning. -/
theorem C1_counterexample :
    (OpenDynamicChannel s1 1 ConnectEnv.timesOut).2 = (grpcOk, some 0) ∧
    (OpenDynamicChannel s1 1 (ConnectEnv.opens ch0)).2 = (grpcOk, some 0) := by
  constructor <;> rfl

/-- C1 (amended): a `Connect` whose completion callback never fires returns
to the caller when the 2 s bounded wait elapses (the control thread is not
blocked indefinitely: the timed-out branch of the model is total and
answers grpc OK), but the response status is the helper's currently stored
`channel_open_fail_reason_` — initially the success code 0 — rather than a
distinct timeout status. -/
theorem C1_theorem (s : FacadeState) (psm : Nat) (helper : Helper)
    (hfind : mapFind s.dynamic_channel_helper_map psm = some helper) :
    (OpenDynamicChannel s psm ConnectEnv.timesOut).2 =
      (grpcOk, some helper.channel_open_fail_reason.l2cap_connection_response_result) := by
  simp [OpenDynamicChannel, hfind, Helper.Connect]

/-- C1 witness: the amended statement at the concrete state `s1`. -/
theorem C1_witness :
    (OpenDynamicChannel s1 1 ConnectEnv.timesOut).2 = (grpcOk, some 0) :=
  C1_theorem s1 1 (freshHelper 1) rfl

/-- C2 counterexample: a second send issued while payload `[1]`'s enqueue
callback has not yet fired fails with
`Status(FAILED_PRECONDITION, "Channel not open")` — byte-for-byte the same
status returned when no channel is open at all.  The facade has no distinct
SendBusy status. -/
theorem C2_counterexample :
    (SendDynamicChannelPacket sBusy 1 [2] ⟨none, false⟩).2 = channelNotOpen ∧
    (SendDynamicChannelPacket s1 1 [2] ⟨none, false⟩).2 = channelNotOpen := by
  constructor <;> rfl

/-- C2 (amended): a second `Send` on a port whose previous send's enqueue
callback has not fired fails within the 500 ms wait, but with the same
FAILED_PRECONDITION "Channel not open" status used for a port with no open
channel (no distinct SendBusy status exists), and the first payload's
registration is not removed or overwritten by the facade: the second
payload is registered alongside it. -/
theorem C2_theorem (s : FacadeState) (psm : Nat) (helper : Helper) (ch : Channel)
    (p1 p2 : List Nat)
    (hfind : mapFind s.dynamic_channel_helper_map psm = some helper)
    (hch : helper.channel = some ch)
    (hp1 : p1 ∈ helper.enqueueRegistered) :
    (SendDynamicChannelPacket s psm p2 ⟨none, false⟩).2 = channelNotOpen ∧
    ∃ helper',
      mapFind (SendDynamicChannelPacket s psm p2
          ⟨none, false⟩).1.dynamic_channel_helper_map psm = some helper' ∧
      helper'.enqueueRegistered = helper.enqueueRegistered ++ [p2] ∧
      p1 ∈ helper'.enqueueRegistered := by
  refine ⟨?_, ?_⟩
  · simp [SendDynamicChannelPacket, hfind, Helper.SendPacket, hch, sendOnOpen]
  · refine ⟨{ helper with enqueueRegistered := helper.enqueueRegistered ++ [p2] }, ?_, rfl, ?_⟩
    · simp [SendDynamicChannelPacket, hfind, Helper.SendPacket, hch, sendOnOpen]
      exact mapFind_mapUpdate_self _ _ _ _ hfind
    · exact List.mem_append_left _ hp1

/-- C2 witness: the amended statement at the concrete busy state `sBusy`
(payload `[1]` in flight, second payload `[2]`). -/
theorem C2_witness :
    (SendDynamicChannelPacket sBusy 1 [2] ⟨none, false⟩).2 = channelNotOpen ∧
    ∃ helper',
      mapFind (SendDynamicChannelPacket sBusy 1 [2]
          ⟨none, false⟩).1.dynamic_channel_helper_map 1 = some helper' ∧
      helper'.enqueueRegistered = helperBusy.enqueueRegistered ++ [[2]] ∧
      [1] ∈ helper'.enqueueRegistered :=
  C2_theorem sBusy 1 helperBusy ch0 [1] [2] rfl rfl (by decide)

/-- C3 counterexample: after `SetDynamicChannel(1, enable)`, a second
`SetDynamicChannel(1, enable)` answers grpc OK — not an AlreadyRegistered
failure — and leaves the facade state unchanged. -/
theorem C3_counterexample :
    (SetDynamicChannel s1 1 true).2 = grpcOk ∧
    (SetDynamicChannel s1 1 true).1 = s1 ∧
    grpcOk.code ≠ GrpcCode.FAILED_PRECONDITION := by
  refine ⟨rfl, rfl, by decide⟩

/-- C3 (amended): a second `EnablePort(p)` with no intervening disable
succeeds with OK instead of failing with AlreadyRegistered; the underlying
`emplace` leaves the existing helper in place, so the duplicate attempt is
silently ignored (not merged) and the state is unchanged. -/
theorem C3_theorem (s : FacadeState) (psm : Nat) (helper : Helper)
    (hfind : mapFind s.dynamic_channel_helper_map psm = some helper) :
    SetDynamicChannel s psm true = (s, grpcOk) := by
  simp [SetDynamicChannel, mapEmplace_of_found _ _ _ _ hfind]

/-- C3 witness: the amended statement at the concrete state `s1`. -/
theorem C3_witness : SetDynamicChannel s1 1 true = (s1, grpcOk) :=
  C3_theorem s1 1 (freshHelper 1) rfl

/-- C4 counterexample: `SetDynamicChannel(1, disable)` on a registered PSM
answers OK, but the registry entry for PSM 1 is still present afterwards —
a subsequent lookup still finds the helper (only `serviceRegistered` has
been cleared), refuting "removes p's entry so a subsequent lookup fails". -/
theorem C4_counterexample :
    (SetDynamicChannel s1 1 false).2 = grpcOk ∧
    mapFind (SetDynamicChannel s1 1 false).1.dynamic_channel_helper_map 1 =
      some { freshHelper 1 with serviceRegistered := false } := by
  constructor <;> rfl

/-- C4 (amended): `DisablePort(p)` with no registered helper fails with
`Psm not registered`; with a registered helper it unregisters the listener
and returns OK, but it does not erase the registry entry — a subsequent
lookup still finds the helper, with every field other than the listener
registration (in particular any open channel) untouched. -/
theorem C4_theorem (s : FacadeState) (psm : Nat) :
    (mapFind s.dynamic_channel_helper_map psm = none →
      SetDynamicChannel s psm false = (s, psmNotRegistered)) ∧
    (∀ helper, mapFind s.dynamic_channel_helper_map psm = some helper →
      (SetDynamicChannel s psm false).2 = grpcOk ∧
      mapFind (SetDynamicChannel s psm false).1.dynamic_channel_helper_map psm =
        some { helper with serviceRegistered := false }) := by
  constructor
  · intro hnone
    simp [SetDynamicChannel, hnone]
  · intro helper hfind
    refine ⟨by simp [SetDynamicChannel, hfind], ?_⟩
    simp [SetDynamicChannel, hfind]
    exact mapFind_mapUpdate_self _ _ _ _ hfind

/-- C4 witness: both branches of the amended statement at concrete states:
disable on the empty facade `s0` fails with `Psm not registered`; disable on
`s1` answers OK and the helper is still found afterwards. -/
theorem C4_witness :
    SetDynamicChannel s0 1 false = (s0, psmNotRegistered) ∧
    (SetDynamicChannel s1 1 false).2 = grpcOk ∧
    mapFind (SetDynamicChannel s1 1 false).1.dynamic_channel_helper_map 1 =
      some { freshHelper 1 with serviceRegistered := false } :=
  ⟨(C4_theorem s0 1).1 rfl, (C4_theorem s1 1).2 (freshHelper 1) rfl⟩

/-- C5 counterexample: after a connect attempt on PSM 1 failed with reason
code 5, a successful open (the `on_connection_open` completion fires) still
answers response status 5 — the stale failure reason of the earlier attempt
— rather than the success code 0. -/
theorem C5_counterexample :
    (OpenDynamicChannel s1f 1 (ConnectEnv.opens ch0)).2 = (grpcOk, some 5) ∧
    (5 : Nat) ≠ 0 := by
  refine ⟨rfl, by decide⟩

/-- C5 (amended): the status returned by `OpenDynamicChannel` is always the
helper's stored `channel_open_fail_reason_` after the bounded wait: when the
attempt fails, it carries that attempt's recorded reason; when the attempt
opens successfully, it still carries the previously recorded failure reason
(stale from an earlier attempt), not a success indication of this attempt. -/
theorem C5_theorem (s : FacadeState) (psm : Nat) (helper : Helper)
    (r : ConnectionResult) (ch : Channel)
    (hfind : mapFind s.dynamic_channel_helper_map psm = some helper) :
    (OpenDynamicChannel s psm (ConnectEnv.fails r)).2 =
      (grpcOk, some r.l2cap_connection_response_result) ∧
    (OpenDynamicChannel s psm (ConnectEnv.opens ch)).2 =
      (grpcOk, some helper.channel_open_fail_reason.l2cap_connection_response_result) := by
  constructor <;>
    simp [OpenDynamicChannel, hfind, Helper.Connect, on_connect_fail, on_connection_open]

/-- C5 witness: the amended statement at the concrete state `s1f` (stale
failure reason 5): a new failing attempt with reason 7 reports 7, a new
successful attempt still reports the stale 5. -/
theorem C5_witness :
    (OpenDynamicChannel s1f 1 (ConnectEnv.fails ⟨7⟩)).2 = (grpcOk, some 7) ∧
    (OpenDynamicChannel s1f 1 (ConnectEnv.opens ch0)).2 = (grpcOk, some 5) :=
  C5_theorem s1f 1 helperFailed ⟨7⟩ ch0 rfl

/-- C6: for a registered PSM, a send while no channel is open (and none
appears during the bounded wait) fails with "Channel not open"; and after
`on_close_callback` has fired for the PSM's channel, a subsequent send
fails with "Channel not open" and a subsequent `CloseDynamicChannel` also
fails with "Channel not open". -/
theorem C6_theorem (s : FacadeState) (psm : Nat) (payload : List Nat) (helper : Helper)
    (hfind : mapFind s.dynamic_channel_helper_map psm = some helper) :
    (helper.channel = none →
      (SendDynamicChannelPacket s psm payload ⟨none, false⟩).2 = channelNotOpen) ∧
    (SendDynamicChannelPacket (fireOnClose s psm) psm payload ⟨none, false⟩).2 =
      channelNotOpen ∧
    (CloseDynamicChannel (fireOnClose s psm) psm).2 = channelNotOpen := by
  have hclosed : mapFind (fireOnClose s psm).dynamic_channel_helper_map psm =
      some (on_close_callback helper) := by
    simp [fireOnClose, hfind, putHelper]
    exact mapFind_mapUpdate_self _ _ _ _ hfind
  refine ⟨?_, ?_, ?_⟩
  · intro hch
    simp [SendDynamicChannelPacket, hfind, Helper.SendPacket, hch]
  · simp [SendDynamicChannelPacket, hclosed, Helper.SendPacket, on_close_callback]
  · simp [CloseDynamicChannel, hclosed, on_close_callback]

/-- C6 witness: the statement at concrete states: a send on the
just-registered `s1` (never opened) fails with "Channel not open"; after
the close callback fires on the open state `sOpen`, both a send and a close
fail with "Channel not open". -/
theorem C6_witness :
    (SendDynamicChannelPacket s1 1 [7] ⟨none, false⟩).2 = channelNotOpen ∧
    (SendDynamicChannelPacket (fireOnClose sOpen 1) 1 [7] ⟨none, false⟩).2 =
      channelNotOpen ∧
    (CloseDynamicChannel (fireOnClose sOpen 1) 1).2 = channelNotOpen :=
  ⟨(C6_theorem s1 1 [7] (freshHelper 1) rfl).1 rfl,
   (C6_theorem sOpen 1 [7] helperOpen rfl).2⟩

/-- C7: an invocation of `on_incoming_packet` on a helper whose channel has
a buffered unit dequeues exactly that one unit (the receive queue loses
exactly its head) and publishes exactly one event to the relay, pairing the
helper's PSM with the unit's payload bytes unchanged. -/
theorem C7_theorem (h : Helper) (ch : Channel) (pkt : List Nat)
    (rest : List (List Nat)) (relay : List L2capPacket)
    (hch : h.channel = some ch) (hq : ch.inbound = pkt :: rest) :
    on_incoming_packet h relay =
      some ({ h with channel := some ⟨rest⟩ }, relay ++ [⟨h.psm, pkt⟩]) := by
  simp [on_incoming_packet, hch, hq]

/-- C7 witness: the statement at a concrete helper whose channel holds the
single buffered unit `[3]`. -/
theorem C7_witness :
    on_incoming_packet helperWithInbound [] =
      some ({ helperWithInbound with channel := some ⟨[]⟩ }, [⟨1, [3]⟩]) :=
  C7_theorem helperWithInbound ⟨[[3]]⟩ [3] [] [] rfl rfl

/-- C10: `on_incoming_packet` is free of the null dereference exactly under
the precondition that a unit is buffered: with an open channel, a nonempty
receive queue yields a defined result, and an empty receive queue reaches
the unguarded dereference of the empty `TryDequeue` result (modelled as
`none`). -/
theorem C10_theorem (h : Helper) (ch : Channel) (relay : List L2capPacket)
    (hch : h.channel = some ch) :
    (ch.inbound ≠ [] → (on_incoming_packet h relay).isSome = true) ∧
    (ch.inbound = [] → on_incoming_packet h relay = none) := by
  constructor
  · intro hne
    match hq : ch.inbound with
    | [] => exact absurd hq hne
    | pkt :: rest => simp [on_incoming_packet, hch, hq]
  · intro hq
    simp [on_incoming_packet, hch, hq]

/-- C10 witness: the statement at concrete helpers: with buffered unit `[3]`
the callback is defined; with an open channel and empty receive queue it
reaches the null dereference. -/
theorem C10_witness :
    (on_incoming_packet helperWithInbound []).isSome = true ∧
    on_incoming_packet helperOpen [] = none :=
  ⟨(C10_theorem helperWithInbound ⟨[[3]]⟩ [] rfl).1 (by decide),
   (C10_theorem helperOpen ch0 [] rfl).2 rfl⟩

/-- C9 counterexample: the body of `on_close_callback` performs exactly one
write to a shared field outside the helper's lock — the `channel_ = nullptr`
executed after the scoped `unique_lock` has been destroyed — so the stated
invariant (`channel` mutated only under the lock) fails on this callback. -/
theorem C9_counterexample :
    unlockedWrites on_close_callback_steps = [LockAction.writeChannel] := by
  decide

/-- C9 (amended): `on_connection_open` and `on_connect_fail` mutate
`channel_` (and the failure reason) only while holding
`channel_open_cv_mutex_`, but the invariant does not hold for the whole
helper: `on_close_callback` clears `channel_` after releasing the lock, and
`SendPacket` creates and registers the pending-send slot (promise plus
enqueue callback) with no lock held. -/
theorem C9_theorem :
    mutatesOnlyUnderLock on_connection_open_steps = true ∧
    mutatesOnlyUnderLock on_connect_fail_steps = true ∧
    mutatesOnlyUnderLock on_close_callback_steps = false ∧
    mutatesOnlyUnderLock SendPacket_steps = false := by
  decide

theorem portEvents_append (p : Nat) (xs ys : List L2capPacket) :
    portEvents p (xs ++ ys) = portEvents p xs ++ portEvents p ys := by
  simp [portEvents, List.filter_append]

theorem deliverTo_openEmpty (s : FacadeState) (q : Nat) (hh : Helper) (pkt : List Nat)
    (hfind : mapFind s.dynamic_channel_helper_map q = some hh)
    (hpsm : hh.psm = q) (hch : hh.channel = some ⟨[]⟩) :
    deliverTo s q pkt =
      { dynamic_channel_helper_map :=
          mapUpdate s.dynamic_channel_helper_map q ({ hh with channel := some ⟨[]⟩ }),
        pending_l2cap_data := s.pending_l2cap_data ++ [⟨q, pkt⟩] } := by
  simp [deliverTo, hfind, hch, on_incoming_packet, hpsm]

theorem runArrivals_portEvents (p : Nat) (arrivals : List (Nat × List Nat)) :
    ∀ (s : FacadeState), (∀ a ∈ arrivals, openEmptyAt s a.1) →
      portEvents p (runArrivals s arrivals).pending_l2cap_data =
        portEvents p s.pending_l2cap_data ++
          ((arrivals.filter (fun a => a.1 == p)).map (fun a => ⟨p, a.2⟩)) := by
  induction arrivals with
  | nil =>
    intro s _
    simp [runArrivals]
  | cons a rest ih =>
    intro s hall
    obtain ⟨q, pkt⟩ := a
    obtain ⟨hh, hfind, hpsm, hch⟩ := hall (q, pkt) (List.mem_cons_self _ _)
    have hstep := deliverTo_openEmpty s q hh pkt hfind hpsm hch
    have hrest : ∀ a ∈ rest, openEmptyAt (deliverTo s q pkt) a.1 := by
      intro a ha
      obtain ⟨hh', hfind', hpsm', hch'⟩ := hall a (List.mem_cons_of_mem _ ha)
      by_cases hqa : q = a.1
      · subst hqa
        refine ⟨{ hh with channel := some ⟨[]⟩ }, ?_, hpsm, rfl⟩
        rw [hstep]
        exact mapFind_mapUpdate_self _ _ _ _ hfind
      · refine ⟨hh', ?_, hpsm', hch'⟩
        rw [hstep]
        exact (mapFind_mapUpdate_ne _ _ _ _ (fun hc => hqa hc.symm)).trans hfind'
    have hih := ih (deliverTo s q pkt) hrest
    rw [runArrivals, hih, hstep]
    by_cases hqp : q = p
    · subst hqp
      simp [portEvents_append, portEvents, List.append_assoc]
    · simp [portEvents_append, portEvents, hqp]

/-- C8: with every arriving port registered, open, and starting from an
empty receive backlog, the event sequence delivered by the streaming call
(`RunLoop` over `pending_l2cap_data_`, FIFO per the spec-modelled Event
Relay) restricted to any single port equals the events already streamed for
that port followed by that port's arrivals in arrival order — in
particular, for two distinct ports observed concurrently, each port's
events appear in its own publish order, while nothing constrains the
cross-port interleaving. -/
theorem C8_theorem (s : FacadeState) (p1 p2 : Nat) (hne : p1 ≠ p2)
    (arrivals : List (Nat × List Nat))
    (hall : ∀ a ∈ arrivals, openEmptyAt s a.1) :
    portEvents p1 (RunLoop (runArrivals s arrivals).pending_l2cap_data) =
      portEvents p1 (RunLoop s.pending_l2cap_data) ++
        ((arrivals.filter (fun a => a.1 == p1)).map (fun a => ⟨p1, a.2⟩)) ∧
    portEvents p2 (RunLoop (runArrivals s arrivals).pending_l2cap_data) =
      portEvents p2 (RunLoop s.pending_l2cap_data) ++
        ((arrivals.filter (fun a => a.1 == p2)).map (fun a => ⟨p2, a.2⟩)) :=
  ⟨runArrivals_portEvents p1 arrivals s hall, runArrivals_portEvents p2 arrivals s hall⟩

/-- C8 witness: the statement at the concrete two-port state `sTwo` with the
interleaved arrival sequence `[(1, [10]), (2, [20]), (1, [11])]`. -/
theorem C8_witness :
    portEvents 1 (RunLoop (runArrivals sTwo [(1, [10]), (2, [20]), (1, [11])]).pending_l2cap_data) =
      portEvents 1 (RunLoop sTwo.pending_l2cap_data) ++
        (([(1, [10]), (2, [20]), (1, [11])].filter
            (fun a => a.1 == 1)).map (fun a => ⟨1, a.2⟩)) ∧
    portEvents 2 (RunLoop (runArrivals sTwo [(1, [10]), (2, [20]), (1, [11])]).pending_l2cap_data) =
      portEvents 2 (RunLoop sTwo.pending_l2cap_data) ++
        (([(1, [10]), (2, [20]), (1, [11])].filter
            (fun a => a.1 == 2)).map (fun a => ⟨2, a.2⟩)) :=
  C8_theorem sTwo 1 2 (by decide) [(1, [10]), (2, [20]), (1, [11])]
    (by
      intro a ha
      simp [List.mem_cons] at ha
      rcases ha with h | h | h <;> subst h
      · exact ⟨helperOpen, rfl, rfl, rfl⟩
      · exact ⟨helperOpen2, rfl, rfl, rfl⟩
      · exact ⟨helperOpen, rfl, rfl, rfl⟩)
